import Mathlib

/-!
Verification development for the Slack task-assignment bot (`src/bot.py`).

The whole program lives in one Python file.  We shallowly embed the three
request handlers (`assign_task` for the `/assign` slash command,
`fetch_tasks` for the `/tasks` slash command, and `handle_mention` for the
`@mention` event) together with their helpers `is_manager`,
`parse_deadline` and `extract_intent`.

External collaborators are modelled explicitly:
 - the Postgres datastore is a value of type `DB` (lists of rows), and every
   access the code performs is also recorded as a `DbEvent` in an event
   trace, so that claims about which queries/writes happen on which path
   can be stated;
 - the Groq LLM call inside `extract_intent` is modelled by passing the raw
   response text of the current request as a parameter, and `json.loads`
   is modelled by an abstract decoder `String → Option Json`;
 - `dateutil.parser.parse(·, fuzzy=True).date()` is modelled by an
   abstract oracle `String → Option Nat` (a calendar date is abstracted to
   a day number); the bare `except` in `parse_deadline` means any failure,
   including a `TypeError` on a non-string argument, yields `None`.

Python truthiness (`if not x:`) on decoded JSON values is modelled by
`jsonTruthy`; an uncaught Python exception (such as the `AttributeError`
raised by `ai_data.get(...)` when `json.loads` returned a non-object) is
modelled by the `crashed` flag of `RunResult`.
-/

/-- A JSON value as produced by `json.loads`.  Numbers are modelled as
integers (no claim depends on fractional numbers).  Object field lists are
the deduplicated output of `json.loads` (last occurrence of a repeated key
wins, so keys are unique). -/
inductive Json where
  | obj (fields : List (String × Json))
  | arr (elems : List Json)
  | str (s : String)
  | num (n : Int)
  | bool (b : Bool)
  | null

/-- The value stored in the `deadline` column of a `tasks` row.  The
structured `/assign` handler passes the raw token string to the INSERT
(bot.py line 150), while the mention handler passes a parsed `date`
object (line 308); the sum type keeps the two observably distinct. -/
inductive DeadlineVal where
  | raw (s : String)
  | date (d : Nat)

/-- A row of the `members` table. -/
structure Member where
  member_id : Nat
  slack_user_id : String
  member_name : String
  designation : String

/-- A row of the `tasks` table.  The description is kept as the JSON value
the code passed to the INSERT (the structured path always passes a
string). -/
structure TaskRow where
  member_id : Nat
  description : Json
  deadline : DeadlineVal

/-- A row of the `meetings` table. -/
structure Meeting where
  meeting_date : Nat
  transcription_id : Nat

/-- A row of the `transcription` table. -/
structure Transcription where
  transcription_id : Nat
  transcription_summary : String

/-- The datastore state.  `member_id` and `slack_user_id` are unique and
`transcription_id` is unique per the data model; theorems that need
uniqueness take it as an explicit hypothesis. -/
structure DB where
  members : List Member
  tasks : List TaskRow
  meetings : List Meeting
  transcriptions : List Transcription

/-- One observable datastore action.  `openConn` is `get_connection()`,
`closeConn` is `conn.close()` (the code always closes the cursor together
with its connection, so one event suffices for the release claims); the
four query constructors are the four SELECT shapes of bot.py and
`insertTask`/`commit` are the INSERT and `conn.commit()`. -/
inductive DbEvent where
  | openConn
  | closeConn
  | queryDesignation (slack_user_id : String)
  | queryMemberByName (fragment : String)
  | queryTasks (fragment : String)
  | queryMeetings
  | insertTask (member_id : Nat) (description : Json) (deadline : DeadlineVal)
  | commit

/-- The observable outcome of handling one request: the datastore event
trace in program order, the texts passed to `respond`/`say` in order, the
datastore state afterwards, and whether the handler terminated with an
uncaught Python exception. -/
structure RunResult where
  events : List DbEvent
  messages : List String
  db : DB
  crashed : Bool := false

/-- Substring test on character lists: `containsSub sub l` is true iff
`sub` occurs contiguously inside `l`. -/
def containsSub (sub : List Char) : List Char → Bool
  | [] => sub.isEmpty
  | c :: rest => sub.isPrefixOf (c :: rest) || containsSub sub rest

/-- Python `str.lower()` (ASCII case folding, which is all the designations
and names use). -/
def strLower (s : String) : String :=
  ⟨s.data.map Char.toLower⟩

/-- Python `str.strip()`: remove leading and trailing whitespace. -/
def pyStrip (s : String) : String :=
  ⟨((s.data.dropWhile Char.isWhitespace).reverse.dropWhile Char.isWhitespace).reverse⟩

/-- The SQL predicate `member_name ILIKE percent-fragment-percent` used with
plain fragments: a case-insensitive substring match (SQL wildcard
characters inside the fragment are not modelled; no claim uses them). -/
def ilikeMatch (name fragment : String) : Bool :=
  containsSub (strLower fragment).data (strLower name).data

/-- Accumulator pass for `pySplit`: the first argument is the reversed
current word. -/
def wsSplitAux : List Char → List Char → List String
  | acc, [] => if acc.isEmpty then [] else [String.mk acc.reverse]
  | acc, c :: rest =>
    if c.isWhitespace then
      if acc.isEmpty then wsSplitAux [] rest
      else String.mk acc.reverse :: wsSplitAux [] rest
    else wsSplitAux (c :: acc) rest

/-- Python `str.split()` with no separator: split on runs of whitespace,
discarding empty pieces. -/
def pySplit (s : String) : List String :=
  wsSplitAux [] s.data

/-- Python `dict.get k` on a decoded JSON object: `None` when the key is
absent. -/
def jget (fields : List (String × Json)) (k : String) : Option Json :=
  (fields.find? (fun p => p.1 == k)).map (fun p => p.2)

/-- Python `v == s` for `v` the result of `dict.get` and `s` a string
literal: true only when `v` is that exact JSON string. -/
def jeq (v : Option Json) (s : String) : Bool :=
  match v with
  | some (Json.str t) => t == s
  | _ => false

/-- Python truthiness of a decoded JSON value. -/
def jsonTruthy : Json → Bool
  | Json.obj fields => !fields.isEmpty
  | Json.arr elems => !elems.isEmpty
  | Json.str s => s != ""
  | Json.num n => n != 0
  | Json.bool b => b
  | Json.null => false

/-- Python truthiness of the result of `dict.get` (`None` is falsy). -/
def truthyOpt : Option Json → Bool
  | none => false
  | some j => jsonTruthy j

/-- Python `str(v)` as used inside f-strings for scalar JSON values.
Container rendering is abstracted to a placeholder (no claim formats a
container). -/
def pyStr : Json → String
  | Json.str s => s
  | Json.num n => toString n
  | Json.bool b => if b then "True" else "False"
  | Json.null => "None"
  | Json.obj _ => "object"
  | Json.arr _ => "array"

/-- Rendering of a stored deadline in a reply message: the raw token
prints verbatim, a parsed date prints via its (abstract) day number. -/
def renderDeadline : DeadlineVal → String
  | DeadlineVal.raw s => s
  | DeadlineVal.date d => toString d

/-- The bullet list built by the two task-listing loops (bot.py lines
183-184 and 234-235). -/
def renderTaskLines (rows : List (Json × DeadlineVal)) : String :=
  rows.foldl
    (fun acc r => acc ++ "• " ++ pyStr r.1 ++ " (Deadline: " ++ renderDeadline r.2 ++ ")\n") ""

/-- Result rows of the SQL query
`SELECT t.description, t.deadline FROM tasks t JOIN members m ON
t.member_id = m.member_id WHERE m.member_name ILIKE percent-fragment-percent`
(bot.py lines 170-175 and 221-226): the join is resolved with the unique
`member_id`, so it keeps every task whose owning member name matches the
fragment, in tasks-table order. -/
def sqlTasksRows (db : DB) (fragment : String) : List (Json × DeadlineVal) :=
  (db.tasks.filter
      (fun t =>
        match db.members.find? (fun m => m.member_id == t.member_id) with
        | some m => ilikeMatch m.member_name fragment
        | none => false)).map
    (fun t => (t.description, t.deadline))

/-- Insertion step for sorting meeting rows by date, descending. -/
def insertByDateDesc (x : Nat × String) : List (Nat × String) → List (Nat × String)
  | [] => [x]
  | y :: ys => if y.1 ≤ x.1 then x :: y :: ys else y :: insertByDateDesc x ys

/-- Insertion sort by meeting date, descending, modelling
`ORDER BY m.meeting_date DESC` (the default ordering of datastore rows is
abstracted to table order). -/
def sortByDateDesc : List (Nat × String) → List (Nat × String)
  | [] => []
  | x :: xs => insertByDateDesc x (sortByDateDesc xs)

/-- Result rows of the meetings/transcription join (bot.py lines
247-252), joined on the unique `transcription_id` and ordered by date
descending. -/
def sqlMeetingRows (db : DB) : List (Nat × String) :=
  sortByDateDesc
    (db.meetings.filterMap
      (fun mt =>
        (db.transcriptions.find?
            (fun t => t.transcription_id == mt.transcription_id)).map
          (fun t => (mt.meeting_date, t.transcription_summary))))

/-- The event trace of one `is_manager` call: it opens its own connection,
runs the designation SELECT and closes (bot.py lines 36-47). -/
def ismgrEvents (slack_user_id : String) : List DbEvent :=
  [DbEvent.openConn, DbEvent.queryDesignation slack_user_id, DbEvent.closeConn]

/-- The function `is_manager` (bot.py lines 35-49): fetch the designation of the first
`members` row with the given `slack_user_id`; the Python function returns
`row and row[0].lower() == "manager"`, whose truthiness (the only way the
callers use it) is the Boolean modelled here.  It is total: absence of a
row yields `false`, never an error. -/
def is_manager (db : DB) (slack_user_id : String) : Bool :=
  match db.members.find? (fun m => m.slack_user_id == slack_user_id) with
  | none => false
  | some m => strLower m.designation == "manager"

/-- The function `parse_deadline` (bot.py lines 54-58) applied to a decoded JSON field
value, given the dateutil fuzzy parser as an oracle `pd` on strings: the
bare `except` returns `None` on any failure, including the `TypeError`
dateutil raises on a non-string argument. -/
def parseDeadlineVal (pd : String → Option Nat) : Json → Option Nat
  | Json.str s => pd s
  | _ => none

/-- The function `extract_intent` (bot.py lines 63-104) after the LLM call: the raw
response text of the current request is stripped of surrounding
whitespace and decoded by `jsonDecode` (the model of `json.loads`, whose
failure is caught and turned into `None`). -/
def extract_intent (jsonDecode : String → Option Json) (llmResponse : String) : Option Json :=
  jsonDecode (pyStrip llmResponse)

/-- The token grammar of the `/assign` command (bot.py lines 119-127):
whitespace-split; fewer than 3 tokens is the usage failure (`none`);
otherwise first token = member reference, last token = deadline literal,
the tokens in between rejoined with single spaces = description. -/
def structuredParse (text : String) : Option (String × String × String) :=
  let parts := pySplit text
  if parts.length < 3 then none
  else some (parts.headD "", String.intercalate " " ((parts.drop 1).dropLast), parts.getLastD "")

/-- The `/assign` slash-command handler `assign_task` (bot.py lines
110-156), faithful to statement order: `is_manager` first (with its own
connection), then the token-count check, then member lookup on a fresh
connection, then the INSERT of `(member_id, description, deadline)` where
`deadline` is the raw last token, never parsed. -/
def assign_task (db : DB) (slack_user_id : String) (text : String) : RunResult :=
  if !is_manager db slack_user_id then
    { events := ismgrEvents slack_user_id,
      messages := ["❌ Only Managers can assign tasks."], db := db, crashed := false }
  else
    match structuredParse text with
    | none =>
        { events := ismgrEvents slack_user_id,
          messages := ["Usage: /assign member_name description deadline"],
          db := db, crashed := false }
    | some (member_name, description, deadline) =>
        match db.members.find? (fun m => ilikeMatch m.member_name member_name) with
        | none =>
            { events := ismgrEvents slack_user_id ++
                [DbEvent.openConn, DbEvent.queryMemberByName member_name, DbEvent.closeConn],
              messages := ["❌ Member not found."], db := db, crashed := false }
        | some m =>
            { events := ismgrEvents slack_user_id ++
                [DbEvent.openConn, DbEvent.queryMemberByName member_name,
                 DbEvent.insertTask m.member_id (Json.str description) (DeadlineVal.raw deadline),
                 DbEvent.commit, DbEvent.closeConn],
              messages := ["✅ Task assigned to " ++ member_name ++ "."],
              db := { db with tasks :=
                        db.tasks ++ [⟨m.member_id, Json.str description, DeadlineVal.raw deadline⟩] },
              crashed := false }

/-- The single message produced by the `/tasks` listing (bot.py lines
179-185). -/
def structTasksMsg (rows : List (Json × DeadlineVal)) : String :=
  if rows.isEmpty then "No tasks found." else "*Tasks:*\n" ++ renderTaskLines rows

/-- The single message produced by the mention-channel task listing
(bot.py lines 230-236). -/
def mentionTasksMsg (fragment : String) (rows : List (Json × DeadlineVal)) : String :=
  if rows.isEmpty then "No tasks found for " ++ fragment ++ "."
  else "*Tasks for " ++ fragment ++ ":*\n" ++ renderTaskLines rows

/-- The `/tasks` slash-command handler `fetch_tasks` (bot.py lines
162-188): the command text is used as the fragment with no emptiness
check, and the connection is always closed at the end. -/
def fetch_tasks (db : DB) (text : String) : RunResult :=
  { events := [DbEvent.openConn, DbEvent.queryTasks text, DbEvent.closeConn],
    messages := [structTasksMsg (sqlTasksRows db text)],
    db := db, crashed := false }

/-- The single message produced by the meeting listing (bot.py lines
256-262). -/
def meetingsMsg (rows : List (Nat × String)) : String :=
  if rows.isEmpty then "No meeting summaries found."
  else
    rows.foldl (fun acc r => acc ++ "*Date:* " ++ toString r.1 ++ "\n" ++ r.2 ++ "\n\n")
      "*Meeting Transcriptions:*\n\n"

/-- The `view_tasks` branch of the mention handler (bot.py lines
215-240), given the already-open outer connection: an empty (falsy)
member name returns early WITHOUT closing the connection; otherwise the
task query runs and the connection is closed.  Events here exclude the
outer `openConn`, which `handle_mention` prepends. -/
def mentionViewTasks (db : DB) (member_name : Option Json) : RunResult :=
  if !truthyOpt member_name then
    { events := [], messages := ["⚠️ Please specify a member name."], db := db, crashed := false }
  else
    let fragment := pyStr (member_name.getD Json.null)
    { events := [DbEvent.queryTasks fragment, DbEvent.closeConn],
      messages := [mentionTasksMsg fragment (sqlTasksRows db fragment)],
      db := db, crashed := false }

/-- The `view_meetings` branch of the mention handler (bot.py lines
245-266): no member resolution, no authorization; the connection is
closed. -/
def mentionViewMeetings (db : DB) : RunResult :=
  { events := [DbEvent.queryMeetings, DbEvent.closeConn],
    messages := [meetingsMsg (sqlMeetingRows db)],
    db := db, crashed := false }

/-- The `assign_task` branch of the mention handler (bot.py lines
271-315), given the already-open outer connection.  Statement order:
`is_manager` (own connection) first; then the completeness check on
member name and description; then deadline resolution (`parse_deadline`
when the field is truthy, `today + 3` days when it is falsy); then the
member lookup and the INSERT.  The early returns for the unauthorized,
incomplete and bad-deadline cases do NOT close the outer connection. -/
def mentionAssign (db : DB) (slack_user_id : String)
    (member_name description deadline_text : Option Json)
    (today : Nat) (pd : String → Option Nat) : RunResult :=
  if !is_manager db slack_user_id then
    { events := ismgrEvents slack_user_id,
      messages := ["❌ Only Managers can assign tasks."], db := db, crashed := false }
  else if !truthyOpt member_name || !truthyOpt description then
    { events := ismgrEvents slack_user_id,
      messages := ["⚠️ Incomplete task details."], db := db, crashed := false }
  else
    let deadline : Option Nat :=
      if truthyOpt deadline_text then parseDeadlineVal pd (deadline_text.getD Json.null)
      else some (today + 3)
    match deadline with
    | none =>
        { events := ismgrEvents slack_user_id,
          messages := ["⚠️ Could not understand deadline."], db := db, crashed := false }
    | some d =>
        let fragment := pyStr (member_name.getD Json.null)
        match db.members.find? (fun m => ilikeMatch m.member_name fragment) with
        | none =>
            { events := ismgrEvents slack_user_id ++
                [DbEvent.queryMemberByName fragment, DbEvent.closeConn],
              messages := ["❌ Member not found."], db := db, crashed := false }
        | some m =>
            { events := ismgrEvents slack_user_id ++
                [DbEvent.queryMemberByName fragment,
                 DbEvent.insertTask m.member_id (description.getD Json.null) (DeadlineVal.date d),
                 DbEvent.commit, DbEvent.closeConn],
              messages := ["✅ Task assigned to " ++ fragment ++ ". Deadline: " ++ toString d],
              db := { db with tasks :=
                        db.tasks ++ [⟨m.member_id, description.getD Json.null, DeadlineVal.date d⟩] },
              crashed := false }

/-- Prepend the outer `get_connection()` of bot.py line 209 to a branch
result. -/
def withOpenConn (r : RunResult) : RunResult :=
  { r with events := DbEvent.openConn :: r.events }

/-- The `@mention` event handler `handle_mention` (bot.py lines 194-317).
A `None` or falsy decode result gets the generic not-understood message
before any connection is opened; the field reads `ai_data.get(...)` on a
truthy non-object raise an uncaught `AttributeError` (modelled by
`crashed`), also before any connection is opened; otherwise a connection
is opened and the handler dispatches on the `intent` field, falling
through to the could-not-determine message (connection left open) when
the intent is none of the three known values. -/
def handle_mention (db : DB) (slack_user_id : String)
    (jsonDecode : String → Option Json) (llmResponse : String)
    (today : Nat) (pd : String → Option Nat) : RunResult :=
  match extract_intent jsonDecode llmResponse with
  | none =>
      { events := [], messages := ["⚠️ I couldn\x27t understand your request."],
        db := db, crashed := false }
  | some ai_data =>
      if !jsonTruthy ai_data then
        { events := [], messages := ["⚠️ I couldn\x27t understand your request."],
          db := db, crashed := false }
      else
        match ai_data with
        | Json.obj fields =>
            let intent := jget fields "intent"
            let member_name := jget fields "member_name"
            let description := jget fields "description"
            let deadline_text := jget fields "deadline"
            if jeq intent "view_tasks" then
              withOpenConn (mentionViewTasks db member_name)
            else if jeq intent "view_meetings" then
              withOpenConn (mentionViewMeetings db)
            else if jeq intent "assign_task" then
              withOpenConn
                (mentionAssign db slack_user_id member_name description deadline_text today pd)
            else
              withOpenConn
                { events := [], messages := ["⚠️ I couldn\x27t determine your request."],
                  db := db, crashed := false }
        | _ => { events := [], messages := [], db := db, crashed := true }

/-- Number of `openConn` events in a trace. -/
def countOpens : List DbEvent → Nat
  | [] => 0
  | DbEvent.openConn :: tr => countOpens tr + 1
  | _ :: tr => countOpens tr

/-- Number of `closeConn` events in a trace. -/
def countCloses : List DbEvent → Nat
  | [] => 0
  | DbEvent.closeConn :: tr => countCloses tr + 1
  | _ :: tr => countCloses tr

/-- Number of `insertTask` events in a trace. -/
def countInserts : List DbEvent → Nat
  | [] => 0
  | DbEvent.insertTask _ _ _ :: tr => countInserts tr + 1
  | _ :: tr => countInserts tr

/-- Number of member-lookup (`queryMemberByName`) events in a trace. -/
def countMemberQueries : List DbEvent → Nat
  | [] => 0
  | DbEvent.queryMemberByName _ :: tr => countMemberQueries tr + 1
  | _ :: tr => countMemberQueries tr

/-- A trace releases its connections iff it closes as many as it opens
(traces here are sequential per request). -/
def connReleased (tr : List DbEvent) : Bool :=
  countOpens tr == countCloses tr

/-- Concrete members table used by witnesses and counterexamples: the
acting manager (designation with a capital letter, exercising the
case-insensitive comparison) and a regular member. -/
def exMgr : Member := ⟨1, "UMGR", "anna", "Manager"⟩

/-- A non-manager member. -/
def exReg : Member := ⟨2, "UREG", "raj", "regular"⟩

/-- A small concrete datastore with no tasks. -/
def exDB : DB := ⟨[exMgr, exReg], [], [], []⟩

/-- A datastore with two members whose names share the fragment "Ana" and
one task each. -/
def exDB2 : DB :=
  ⟨[⟨1, "U1", "Ana", "regular"⟩, ⟨2, "U2", "Anaya", "regular"⟩, ⟨3, "UMGR", "boss", "manager"⟩],
   [⟨1, Json.str "t1", DeadlineVal.raw "d1"⟩, ⟨2, Json.str "t2", DeadlineVal.raw "d2"⟩],
   [], []⟩

/-- A date-parsing oracle that fails on every input. -/
def pdNone : String → Option Nat := fun _ => none

/-- Decoded fields of a view_tasks intent with an empty member name. -/
def exViewEmptyFields : List (String × Json) :=
  [("intent", Json.str "view_tasks"), ("member_name", Json.str "")]

/-- A decoder mapping the fixed response "RESP" to a view_tasks intent
with an empty member name. -/
def decViewEmpty : String → Option Json :=
  fun s => if s == "RESP" then some (Json.obj exViewEmptyFields) else none

/-- A decoder mapping the fixed response "42" to the JSON number 42 (a
truthy non-object). -/
def decNum : String → Option Json :=
  fun s => if s == "42" then some (Json.num 42) else none

/-- Decoded fields of a view_tasks intent for the fragment "Ana". -/
def exViewAnaFields : List (String × Json) :=
  [("intent", Json.str "view_tasks"), ("member_name", Json.str "Ana")]

/-- A decoder mapping "RESP" to a view_tasks intent for the fragment
"Ana". -/
def decViewAna : String → Option Json :=
  fun s => if s == "RESP" then some (Json.obj exViewAnaFields) else none

/-- Decoded fields of a complete assign_task intent whose deadline text
is the unparseable "xyz". -/
def exBadDlFields : List (String × Json) :=
  [("intent", Json.str "assign_task"), ("member_name", Json.str "anna"),
   ("description", Json.str "write report"), ("deadline", Json.str "xyz")]

/-- A decoder mapping "RESP" to a complete assign_task intent whose
deadline text is the unparseable "xyz". -/
def decAssignBadDl : String → Option Json :=
  fun s => if s == "RESP" then some (Json.obj exBadDlFields) else none

/-- Decoded fields of a complete assign_task intent with an empty
deadline field. -/
def exNoDlFields : List (String × Json) :=
  [("intent", Json.str "assign_task"), ("member_name", Json.str "anna"),
   ("description", Json.str "write report"), ("deadline", Json.str "")]

/-- A decoder mapping "RESP" to a complete assign_task intent with an
empty deadline field. -/
def decAssignNoDl : String → Option Json :=
  fun s => if s == "RESP" then some (Json.obj exNoDlFields) else none

/-- A successful `dict.get` implies the object is non-empty. -/
theorem jget_ne_nil {fields : List (String × Json)} {k : String} {v : Json}
    (h : jget fields k = some v) : fields ≠ [] := by
  intro hnil
  subst hnil
  simp [jget] at h

/-- Reduction of `handle_mention` to its intent dispatch once the decoder
returned a non-empty JSON object. -/
theorem handle_mention_dispatch (db : DB) (uid : String) (dec : String → Option Json)
    (resp : String) (today : Nat) (pd : String → Option Nat)
    (fields : List (String × Json))
    (hdec : dec (pyStrip resp) = some (Json.obj fields)) (hne : fields ≠ []) :
    handle_mention db uid dec resp today pd =
      (if jeq (jget fields "intent") "view_tasks" then
        withOpenConn (mentionViewTasks db (jget fields "member_name"))
      else if jeq (jget fields "intent") "view_meetings" then
        withOpenConn (mentionViewMeetings db)
      else if jeq (jget fields "intent") "assign_task" then
        withOpenConn (mentionAssign db uid (jget fields "member_name")
          (jget fields "description") (jget fields "deadline") today pd)
      else
        withOpenConn
          { events := [], messages := ["⚠️ I couldn\x27t determine your request."],
            db := db, crashed := false }) := by
  cases fields with
  | nil => exact absurd rfl hne
  | cons a t => simp [handle_mention, extract_intent, hdec, jsonTruthy]

/-- Reduction of `handle_mention` to the assign branch. -/
theorem handle_mention_assign (db : DB) (uid : String) (dec : String → Option Json)
    (resp : String) (today : Nat) (pd : String → Option Nat)
    (fields : List (String × Json))
    (hdec : dec (pyStrip resp) = some (Json.obj fields))
    (hint : jget fields "intent" = some (Json.str "assign_task")) :
    handle_mention db uid dec resp today pd =
      withOpenConn (mentionAssign db uid (jget fields "member_name")
        (jget fields "description") (jget fields "deadline") today pd) := by
  rw [handle_mention_dispatch db uid dec resp today pd fields hdec (jget_ne_nil hint), hint]
  simp [jeq]

/-- Reduction of `handle_mention` to the view-tasks branch. -/
theorem handle_mention_view_tasks (db : DB) (uid : String) (dec : String → Option Json)
    (resp : String) (today : Nat) (pd : String → Option Nat)
    (fields : List (String × Json))
    (hdec : dec (pyStrip resp) = some (Json.obj fields))
    (hint : jget fields "intent" = some (Json.str "view_tasks")) :
    handle_mention db uid dec resp today pd =
      withOpenConn (mentionViewTasks db (jget fields "member_name")) := by
  rw [handle_mention_dispatch db uid dec resp today pd fields hdec (jget_ne_nil hint), hint]
  simp [jeq]

/-- The first-row designation check agrees with existential membership
when the external identities are unique. -/
theorem find_mgr_iff (uid : String) (l : List Member)
    (hu : (l.map Member.slack_user_id).Nodup) :
    (match l.find? (fun m => m.slack_user_id == uid) with
     | none => false
     | some m => strLower m.designation == "manager") = true ↔
    ∃ m ∈ l, m.slack_user_id = uid ∧ strLower m.designation = "manager" := by
  induction l with
  | nil => simp
  | cons a l ih =>
    rw [List.map_cons, List.nodup_cons] at hu
    by_cases h : a.slack_user_id = uid
    · rw [List.find?_cons_of_pos _ (by simp [h])]
      constructor
      · intro hd
        exact ⟨a, List.mem_cons_self a l, h, by simpa using hd⟩
      · rintro ⟨m, hm, hmu, hmd⟩
        rcases List.mem_cons.mp hm with rfl | hm'
        · simpa using hmd
        · exact absurd (h ▸ hmu ▸ List.mem_map_of_mem Member.slack_user_id hm') hu.1
    · rw [List.find?_cons_of_neg _ (by simp [h])]
      rw [ih hu.2]
      constructor
      · rintro ⟨m, hm, hmu, hmd⟩
        exact ⟨m, List.mem_cons_of_mem _ hm, hmu, hmd⟩
      · rintro ⟨m, hm, hmu, hmd⟩
        rcases List.mem_cons.mp hm with rfl | hm'
        · exact absurd hmu h
        · exact ⟨m, hm', hmu, hmd⟩

/-- C6: for every acting-user identity, `is_manager` returns true iff a
member record with that `slack_user_id` exists and its designation
compares case-insensitively equal to "manager"; with no matching record
it returns false.  The function is total by construction, so it never
throws (the Python body returns the truthiness of
`row and row[0].lower() == "manager"`). -/
theorem c6_is_manager_iff (db : DB) (uid : String)
    (hu : (db.members.map Member.slack_user_id).Nodup) :
    (is_manager db uid = true ↔
      ∃ m ∈ db.members, m.slack_user_id = uid ∧ strLower m.designation = "manager") ∧
    ((∀ m ∈ db.members, m.slack_user_id ≠ uid) → is_manager db uid = false) := by
  constructor
  · unfold is_manager
    exact find_mgr_iff uid db.members hu
  · intro h
    have hn : db.members.find? (fun m => m.slack_user_id == uid) = none :=
      List.find?_eq_none.mpr (fun m hm => by simpa using h m hm)
    simp [is_manager, hn]

/-- Witness for C6 on the concrete datastore `exDB`. -/
theorem c6_witness :
    (exDB.members.map Member.slack_user_id).Nodup ∧
    ((is_manager exDB "UMGR" = true ↔
        ∃ m ∈ exDB.members, m.slack_user_id = "UMGR" ∧ strLower m.designation = "manager") ∧
      ((∀ m ∈ exDB.members, m.slack_user_id ≠ "UMGR") → is_manager exDB "UMGR" = false)) :=
  ⟨by decide, c6_is_manager_iff exDB "UMGR" (by decide)⟩

/-- C2 (amended): when the caller is a manager, a `/assign` text with
fewer than 3 whitespace tokens yields exactly the literal usage message,
no member query, no insert and an unchanged datastore; the only datastore
access of the request is the members read already performed by the
preceding `is_manager` authorization check (a non-manager caller gets the
authorization error instead of the usage error). -/
theorem c2_short_input_usage (db : DB) (uid : String) (text : String)
    (hm : is_manager db uid = true) (hlt : (pySplit text).length < 3) :
    assign_task db uid text =
      { events := ismgrEvents uid,
        messages := ["Usage: /assign member_name description deadline"],
        db := db, crashed := false } := by
  simp [assign_task, hm, structuredParse, hlt]

/-- Witness for C2 at the two-token input "a b" issued by the manager. -/
theorem c2_witness :
    is_manager exDB "UMGR" = true ∧ (pySplit "a b").length < 3 ∧
    assign_task exDB "UMGR" "a b" =
      { events := ismgrEvents "UMGR",
        messages := ["Usage: /assign member_name description deadline"],
        db := exDB, crashed := false } :=
  ⟨rfl, by decide, c2_short_input_usage exDB "UMGR" "a b" rfl (by decide)⟩

/-- Counterexample to C2 as stated: the two-token command "a b" from a
manager does return the literal usage message, but the request has
already accessed the datastore — `is_manager` ran first and executed the
designation SELECT on its own connection — so "the whole request performs
no datastore access" is false. -/
theorem c2_counterexample :
    (assign_task exDB "UMGR" "a b").messages =
      ["Usage: /assign member_name description deadline"] ∧
    (assign_task exDB "UMGR" "a b").events =
      [DbEvent.openConn, DbEvent.queryDesignation "UMGR", DbEvent.closeConn] :=
  ⟨rfl, rfl⟩

/-- C9: for every `/assign` text with at least 3 whitespace tokens issued
by a manager whose first token fuzzily resolves to member `m`, the member
reference is the first token, the deadline literal is the last token and
the description is the middle tokens rejoined with single spaces; the
request finalizes as exactly that task insert. -/
theorem c9_structured_grammar (db : DB) (uid : String) (text : String) (m : Member)
    (hm : is_manager db uid = true) (hlen : 3 ≤ (pySplit text).length)
    (hf : db.members.find?
        (fun x => ilikeMatch x.member_name ((pySplit text).headD "")) = some m) :
    assign_task db uid text =
      { events := ismgrEvents uid ++
          [DbEvent.openConn, DbEvent.queryMemberByName ((pySplit text).headD ""),
           DbEvent.insertTask m.member_id
             (Json.str (String.intercalate " " (((pySplit text).drop 1).dropLast)))
             (DeadlineVal.raw ((pySplit text).getLastD "")),
           DbEvent.commit, DbEvent.closeConn],
        messages := ["✅ Task assigned to " ++ (pySplit text).headD "" ++ "."],
        db := { db with tasks := db.tasks ++
            [⟨m.member_id,
              Json.str (String.intercalate " " (((pySplit text).drop 1).dropLast)),
              DeadlineVal.raw ((pySplit text).getLastD "")⟩] },
        crashed := false } := by
  have hnlt : ¬ (pySplit text).length < 3 := by omega
  have hf2 : db.members.find?
      (fun x => ilikeMatch x.member_name ((pySplit text).head?.getD "")) = some m := by
    simpa using hf
  simp [assign_task, hm, structuredParse, hnlt, hf2]

/-- Witness for C9 at the four-token command
"anna prepare deck 2025-03-01" issued by the manager: description is
"prepare deck", deadline literal is "2025-03-01". -/
theorem c9_witness :
    is_manager exDB "UMGR" = true ∧ 3 ≤ (pySplit "anna prepare deck 2025-03-01").length ∧
    exDB.members.find?
        (fun x => ilikeMatch x.member_name
          ((pySplit "anna prepare deck 2025-03-01").headD "")) = some exMgr ∧
    assign_task exDB "UMGR" "anna prepare deck 2025-03-01" =
      { events := ismgrEvents "UMGR" ++
          [DbEvent.openConn, DbEvent.queryMemberByName "anna",
           DbEvent.insertTask 1 (Json.str "prepare deck") (DeadlineVal.raw "2025-03-01"),
           DbEvent.commit, DbEvent.closeConn],
        messages := ["✅ Task assigned to anna."],
        db := { exDB with tasks :=
            [⟨1, Json.str "prepare deck", DeadlineVal.raw "2025-03-01"⟩] },
        crashed := false } :=
  ⟨rfl, by decide, rfl,
    c9_structured_grammar exDB "UMGR" "anna prepare deck 2025-03-01" exMgr rfl (by decide) rfl⟩

/-- C1 (amended): the structured `/assign` path performs no date parsing
at all — whenever the insert happens, the deadline column receives the
raw last token verbatim (`DeadlineVal.raw`), and the request reports
success regardless of whether that token would parse as a calendar date
(`parse_deadline` is never invoked on this path, so an unparseable token
is stored unparsed rather than ending in a resolution failure). -/
theorem c1_raw_deadline_stored (db : DB) (uid : String) (text : String) (m : Member)
    (hm : is_manager db uid = true) (hlen : 3 ≤ (pySplit text).length)
    (hf : db.members.find?
        (fun x => ilikeMatch x.member_name ((pySplit text).headD "")) = some m) :
    (assign_task db uid text).db.tasks =
      db.tasks ++
        [⟨m.member_id,
          Json.str (String.intercalate " " (((pySplit text).drop 1).dropLast)),
          DeadlineVal.raw ((pySplit text).getLastD "")⟩] ∧
    (assign_task db uid text).messages =
      ["✅ Task assigned to " ++ (pySplit text).headD "" ++ "."] := by
  have hnlt : ¬ (pySplit text).length < 3 := by omega
  have hf2 : db.members.find?
      (fun x => ilikeMatch x.member_name ((pySplit text).head?.getD "")) = some m := by
    simpa using hf
  constructor <;> simp [assign_task, hm, structuredParse, hnlt, hf2]

/-- Witness for C1 (amended) at the command
"anna prepare deck 2025-03-01". -/
theorem c1_witness :
    is_manager exDB "UMGR" = true ∧ 3 ≤ (pySplit "anna prepare deck 2025-03-01").length ∧
    exDB.members.find?
        (fun x => ilikeMatch x.member_name
          ((pySplit "anna prepare deck 2025-03-01").headD "")) = some exMgr ∧
    ((assign_task exDB "UMGR" "anna prepare deck 2025-03-01").db.tasks =
        [⟨1, Json.str "prepare deck", DeadlineVal.raw "2025-03-01"⟩] ∧
      (assign_task exDB "UMGR" "anna prepare deck 2025-03-01").messages =
        ["✅ Task assigned to anna."]) :=
  ⟨rfl, by decide, rfl,
    c1_raw_deadline_stored exDB "UMGR" "anna prepare deck 2025-03-01" exMgr rfl (by decide) rfl⟩

/-- Counterexample to C1 as stated: the manager command
"anna write the report notadate" carries the deadline token "notadate",
which no date parser accepts, yet the request succeeds and inserts a task
row whose deadline is the unparsed raw string — not a calendar date, and
not a resolution failure. -/
theorem c1_counterexample :
    (assign_task exDB "UMGR" "anna write the report notadate").db.tasks =
      [⟨1, Json.str "write the report", DeadlineVal.raw "notadate"⟩] ∧
    (assign_task exDB "UMGR" "anna write the report notadate").messages =
      ["✅ Task assigned to anna."] :=
  ⟨rfl, rfl⟩

/-- C4: for every assign_task request, structured or natural-language,
whose acting user is not a manager, the request is rejected immediately
with the authorization error; the only datastore events are the
authorization lookup itself (plus, on the mention channel, the outer
connection already opened), so no member query, no deadline resolution
(the result does not depend on `today` or the date oracle `pd`) and no
insert ever happen, and the datastore is unchanged. -/
theorem c4_auth_precedes_resolution (db : DB) (uid : String) (text : String)
    (dec : String → Option Json) (resp : String) (today : Nat) (pd : String → Option Nat)
    (fields : List (String × Json))
    (hmgr : is_manager db uid = false)
    (hdec : dec (pyStrip resp) = some (Json.obj fields))
    (hint : jget fields "intent" = some (Json.str "assign_task")) :
    assign_task db uid text =
      { events := ismgrEvents uid,
        messages := ["❌ Only Managers can assign tasks."], db := db, crashed := false } ∧
    handle_mention db uid dec resp today pd =
      { events := DbEvent.openConn :: ismgrEvents uid,
        messages := ["❌ Only Managers can assign tasks."], db := db, crashed := false } := by
  refine ⟨by simp [assign_task, hmgr], ?_⟩
  rw [handle_mention_assign db uid dec resp today pd fields hdec hint]
  simp [mentionAssign, hmgr, withOpenConn]

/-- Witness for C4: the regular member "UREG" is rejected on both
channels. -/
theorem c4_witness :
    is_manager exDB "UREG" = false ∧
    decAssignBadDl (pyStrip "RESP") = some (Json.obj exBadDlFields) ∧
    jget exBadDlFields "intent" = some (Json.str "assign_task") ∧
    (assign_task exDB "UREG" "anna prepare deck 2025-03-01" =
        { events := ismgrEvents "UREG",
          messages := ["❌ Only Managers can assign tasks."], db := exDB, crashed := false } ∧
      handle_mention exDB "UREG" decAssignBadDl "RESP" 0 pdNone =
        { events := DbEvent.openConn :: ismgrEvents "UREG",
          messages := ["❌ Only Managers can assign tasks."], db := exDB, crashed := false }) :=
  ⟨rfl, rfl, rfl,
    c4_auth_precedes_resolution exDB "UREG" "anna prepare deck 2025-03-01" decAssignBadDl
      "RESP" 0 pdNone exBadDlFields rfl rfl rfl⟩

/-- A non-empty JSON string is truthy. -/
theorem truthyOpt_str (s : String) (hs : s ≠ "") : truthyOpt (some (Json.str s)) = true := by
  simp [truthyOpt, jsonTruthy, hs]

/-- C10: in the natural-language assign path, deadline resolution runs
before member lookup: for an authorized assign_task intent with truthy
member name and description whose deadline text is a non-empty string
the date oracle rejects, the handler reports the deadline error and the
trace contains no member query and no insert (the result does not depend
on whether the member reference would resolve). -/
theorem c10_deadline_before_member (db : DB) (uid : String)
    (dec : String → Option Json) (resp : String) (today : Nat) (pd : String → Option Nat)
    (fields : List (String × Json)) (s : String)
    (hdec : dec (pyStrip resp) = some (Json.obj fields))
    (hint : jget fields "intent" = some (Json.str "assign_task"))
    (hmgr : is_manager db uid = true)
    (hmn : truthyOpt (jget fields "member_name") = true)
    (hdesc : truthyOpt (jget fields "description") = true)
    (hdl : jget fields "deadline" = some (Json.str s))
    (hs : s ≠ "") (hpd : pd s = none) :
    handle_mention db uid dec resp today pd =
      { events := DbEvent.openConn :: ismgrEvents uid,
        messages := ["⚠️ Could not understand deadline."], db := db, crashed := false } ∧
    countMemberQueries (handle_mention db uid dec resp today pd).events = 0 ∧
    countInserts (handle_mention db uid dec resp today pd).events = 0 := by
  have he := handle_mention_assign db uid dec resp today pd fields hdec hint
  have hma : mentionAssign db uid (jget fields "member_name") (jget fields "description")
      (jget fields "deadline") today pd =
      { events := ismgrEvents uid,
        messages := ["⚠️ Could not understand deadline."], db := db, crashed := false } := by
    simp [mentionAssign, hmgr, hmn, hdesc, hdl, truthyOpt_str s hs, parseDeadlineVal, hpd]
  rw [he, hma]
  refine ⟨rfl, ?_, ?_⟩ <;>
    simp [withOpenConn, countMemberQueries, countInserts, ismgrEvents]

/-- Witness for C10 with the unparseable deadline text "xyz". -/
theorem c10_witness :
    decAssignBadDl (pyStrip "RESP") = some (Json.obj exBadDlFields) ∧
    jget exBadDlFields "intent" = some (Json.str "assign_task") ∧
    is_manager exDB "UMGR" = true ∧
    truthyOpt (jget exBadDlFields "member_name") = true ∧
    truthyOpt (jget exBadDlFields "description") = true ∧
    jget exBadDlFields "deadline" = some (Json.str "xyz") ∧
    "xyz" ≠ "" ∧ pdNone "xyz" = none ∧
    (handle_mention exDB "UMGR" decAssignBadDl "RESP" 0 pdNone =
        { events := DbEvent.openConn :: ismgrEvents "UMGR",
          messages := ["⚠️ Could not understand deadline."], db := exDB, crashed := false } ∧
      countMemberQueries (handle_mention exDB "UMGR" decAssignBadDl "RESP" 0 pdNone).events = 0 ∧
      countInserts (handle_mention exDB "UMGR" decAssignBadDl "RESP" 0 pdNone).events = 0) :=
  ⟨rfl, rfl, rfl, rfl, rfl, rfl, by decide, rfl,
    c10_deadline_before_member exDB "UMGR" decAssignBadDl "RESP" 0 pdNone exBadDlFields
      "xyz" rfl rfl rfl rfl rfl rfl (by decide) rfl⟩

/-- C8: in the natural-language assign path with an authorized caller and
truthy member name and description, a falsy (absent or empty) deadline
field resolves to exactly `today + 3` days — the inserted task carries
`DeadlineVal.date (today + 3)` when the member resolves — while a
non-empty deadline string the date oracle rejects ends the request with
the deadline-unintelligible error, unchanged datastore and no insert. -/
theorem c8_nl_deadline_policy (db : DB) (uid : String)
    (dec : String → Option Json) (resp : String) (today : Nat) (pd : String → Option Nat)
    (fields : List (String × Json))
    (hdec : dec (pyStrip resp) = some (Json.obj fields))
    (hint : jget fields "intent" = some (Json.str "assign_task"))
    (hmgr : is_manager db uid = true)
    (hmn : truthyOpt (jget fields "member_name") = true)
    (hdesc : truthyOpt (jget fields "description") = true) :
    (truthyOpt (jget fields "deadline") = false →
      ∀ m : Member,
        db.members.find?
            (fun x => ilikeMatch x.member_name
              (pyStr ((jget fields "member_name").getD Json.null))) = some m →
        handle_mention db uid dec resp today pd =
          { events := DbEvent.openConn :: (ismgrEvents uid ++
              [DbEvent.queryMemberByName (pyStr ((jget fields "member_name").getD Json.null)),
               DbEvent.insertTask m.member_id ((jget fields "description").getD Json.null)
                 (DeadlineVal.date (today + 3)),
               DbEvent.commit, DbEvent.closeConn]),
            messages := ["✅ Task assigned to " ++
                pyStr ((jget fields "member_name").getD Json.null) ++
                ". Deadline: " ++ toString (today + 3)],
            db := { db with tasks := db.tasks ++
                [⟨m.member_id, (jget fields "description").getD Json.null,
                  DeadlineVal.date (today + 3)⟩] },
            crashed := false }) ∧
    (∀ s : String, jget fields "deadline" = some (Json.str s) → s ≠ "" → pd s = none →
      handle_mention db uid dec resp today pd =
        { events := DbEvent.openConn :: ismgrEvents uid,
          messages := ["⚠️ Could not understand deadline."], db := db, crashed := false }) := by
  have he := handle_mention_assign db uid dec resp today pd fields hdec hint
  constructor
  · intro hdl0 m hfm
    rw [he]
    simp [mentionAssign, hmgr, hmn, hdesc, hdl0, hfm, withOpenConn]
  · intro s hdl hs hpd
    rw [he]
    simp [mentionAssign, hmgr, hmn, hdesc, hdl, truthyOpt_str s hs, parseDeadlineVal,
      hpd, withOpenConn]

/-- Witness for C8 at an empty deadline field, `today = 7`: the inserted
deadline is day 10. -/
theorem c8_witness :
    decAssignNoDl (pyStrip "RESP") = some (Json.obj exNoDlFields) ∧
    jget exNoDlFields "intent" = some (Json.str "assign_task") ∧
    is_manager exDB "UMGR" = true ∧
    truthyOpt (jget exNoDlFields "member_name") = true ∧
    truthyOpt (jget exNoDlFields "description") = true ∧
    ((truthyOpt (jget exNoDlFields "deadline") = false →
      ∀ m : Member,
        exDB.members.find?
            (fun x => ilikeMatch x.member_name
              (pyStr ((jget exNoDlFields "member_name").getD Json.null))) = some m →
        handle_mention exDB "UMGR" decAssignNoDl "RESP" 7 pdNone =
          { events := DbEvent.openConn :: (ismgrEvents "UMGR" ++
              [DbEvent.queryMemberByName "anna",
               DbEvent.insertTask m.member_id (Json.str "write report") (DeadlineVal.date 10),
               DbEvent.commit, DbEvent.closeConn]),
            messages := ["✅ Task assigned to anna. Deadline: 10"],
            db := { exDB with tasks :=
                [⟨m.member_id, Json.str "write report", DeadlineVal.date 10⟩] },
            crashed := false }) ∧
      (∀ s : String, jget exNoDlFields "deadline" = some (Json.str s) → s ≠ "" →
        pdNone s = none →
        handle_mention exDB "UMGR" decAssignNoDl "RESP" 7 pdNone =
          { events := DbEvent.openConn :: ismgrEvents "UMGR",
            messages := ["⚠️ Could not understand deadline."], db := exDB, crashed := false })) :=
  ⟨rfl, rfl, rfl, rfl, rfl,
    c8_nl_deadline_policy exDB "UMGR" decAssignNoDl "RESP" 7 pdNone exNoDlFields
      rfl rfl rfl rfl rfl⟩

/-- True exactly for JSON objects. -/
def isObjJson : Json → Bool
  | Json.obj _ => true
  | _ => false

/-- A decoded language-service response on which the claim C5 predicates:
decode failure, or any decoded value that does not carry one of the three
known intent strings. -/
def nlBadResponse : Option Json → Bool
  | none => true
  | some (Json.obj fields) =>
      !(jeq (jget fields "intent") "view_tasks" || jeq (jget fields "intent") "view_meetings" ||
        jeq (jget fields "intent") "assign_task")
  | some _ => true

/-- The decoded responses on which `handle_mention` raises an uncaught
`AttributeError`: truthy non-objects, whose `.get` calls fail. -/
def nlCrashes : Option Json → Bool
  | none => false
  | some j => jsonTruthy j && !isObjJson j

/-- C5 (amended): for every language-service response, the mention
handler strips surrounding whitespace and strict-decodes, and each bad
case is pinned exactly: a decode failure or a falsy decoded value ends
the request with precisely the generic not-understood message and no
datastore event at all; a (truthy) decoded JSON object with a missing or
unexpected intent ends it with precisely the generic could-not-determine
message, the opened connection being its only datastore event; and a
truthy decoded value that is not a JSON object (a bare string, number or
non-empty array) raises an uncaught `AttributeError` on `ai_data.get`
with no message and no datastore event — the crash cases are exactly
`nlCrashes`.  In every case no task is inserted, the datastore is
unchanged, and no intent is guessed. -/
theorem c5_malformed_response (db : DB) (uid : String)
    (dec : String → Option Json) (resp : String) (today : Nat) (pd : String → Option Nat)
    (h : nlBadResponse (dec (pyStrip resp)) = true) :
    (handle_mention db uid dec resp today pd).db = db ∧
    countInserts (handle_mention db uid dec resp today pd).events = 0 ∧
    (handle_mention db uid dec resp today pd).crashed = nlCrashes (dec (pyStrip resp)) ∧
    (truthyOpt (dec (pyStrip resp)) = false →
      handle_mention db uid dec resp today pd =
        { events := [], messages := ["⚠️ I couldn\x27t understand your request."],
          db := db, crashed := false }) ∧
    (∀ fields : List (String × Json),
      dec (pyStrip resp) = some (Json.obj fields) → jsonTruthy (Json.obj fields) = true →
      handle_mention db uid dec resp today pd =
        { events := [DbEvent.openConn],
          messages := ["⚠️ I couldn\x27t determine your request."],
          db := db, crashed := false }) ∧
    (∀ j : Json, dec (pyStrip resp) = some j → jsonTruthy j = true → isObjJson j = false →
      handle_mention db uid dec resp today pd =
        { events := [], messages := [], db := db, crashed := true }) := by
  cases hd : dec (pyStrip resp) with
  | none =>
      have hm : handle_mention db uid dec resp today pd =
          { events := [], messages := ["⚠️ I couldn\x27t understand your request."],
            db := db, crashed := false } := by
        simp [handle_mention, extract_intent, hd]
      refine ⟨by rw [hm], by rw [hm]; rfl, by rw [hm]; rfl, fun _ => hm, ?_, ?_⟩
      · intro fields hf htr
        exact absurd hf (by simp)
      · intro j2 hj htr hobj
        exact absurd hj (by simp)
  | some j =>
      rw [hd] at h
      cases hjt : jsonTruthy j with
      | false =>
          have hm : handle_mention db uid dec resp today pd =
              { events := [], messages := ["⚠️ I couldn\x27t understand your request."],
                db := db, crashed := false } := by
            simp [handle_mention, extract_intent, hd, hjt]
          refine ⟨by rw [hm], by rw [hm]; rfl, by rw [hm]; simp [nlCrashes, hjt],
            fun _ => hm, ?_, ?_⟩
          · intro fields hf htr
            obtain rfl : j = Json.obj fields := Option.some.inj hf
            simp [htr] at hjt
          · intro j2 hj htr hobj
            obtain rfl : j = j2 := Option.some.inj hj
            simp [htr] at hjt
      | true =>
          cases j with
          | obj fields =>
              simp only [nlBadResponse, Bool.not_eq_true', Bool.or_eq_false_iff] at h
              obtain ⟨⟨h1, h2⟩, h3⟩ := h
              have hm : handle_mention db uid dec resp today pd =
                  { events := [DbEvent.openConn],
                    messages := ["⚠️ I couldn\x27t determine your request."],
                    db := db, crashed := false } := by
                simp [handle_mention, extract_intent, hd, hjt, h1, h2, h3, withOpenConn]
              refine ⟨by rw [hm], by rw [hm]; rfl,
                by rw [hm]; simp [nlCrashes, isObjJson, hjt], ?_, fun _ _ _ => hm, ?_⟩
              · intro ht
                simp [truthyOpt, hjt] at ht
              · intro j2 hj htr hobj
                obtain rfl : Json.obj fields = j2 := Option.some.inj hj
                simp [isObjJson] at hobj
          | arr elems =>
              have hm : handle_mention db uid dec resp today pd =
                  { events := [], messages := [], db := db, crashed := true } := by
                simp [handle_mention, extract_intent, hd, hjt]
              refine ⟨by rw [hm], by rw [hm]; rfl,
                by rw [hm]; simp [nlCrashes, isObjJson, hjt], ?_, ?_, fun _ _ _ _ => hm⟩
              · intro ht
                simp [truthyOpt, hjt] at ht
              · intro fields hf htr
                exact absurd hf (by simp)
          | str s =>
              have hm : handle_mention db uid dec resp today pd =
                  { events := [], messages := [], db := db, crashed := true } := by
                simp [handle_mention, extract_intent, hd, hjt]
              refine ⟨by rw [hm], by rw [hm]; rfl,
                by rw [hm]; simp [nlCrashes, isObjJson, hjt], ?_, ?_, fun _ _ _ _ => hm⟩
              · intro ht
                simp [truthyOpt, hjt] at ht
              · intro fields hf htr
                exact absurd hf (by simp)
          | num n =>
              have hm : handle_mention db uid dec resp today pd =
                  { events := [], messages := [], db := db, crashed := true } := by
                simp [handle_mention, extract_intent, hd, hjt]
              refine ⟨by rw [hm], by rw [hm]; rfl,
                by rw [hm]; simp [nlCrashes, isObjJson, hjt], ?_, ?_, fun _ _ _ _ => hm⟩
              · intro ht
                simp [truthyOpt, hjt] at ht
              · intro fields hf htr
                exact absurd hf (by simp)
          | bool b =>
              have hm : handle_mention db uid dec resp today pd =
                  { events := [], messages := [], db := db, crashed := true } := by
                simp [handle_mention, extract_intent, hd, hjt]
              refine ⟨by rw [hm], by rw [hm]; rfl,
                by rw [hm]; simp [nlCrashes, isObjJson, hjt], ?_, ?_, fun _ _ _ _ => hm⟩
              · intro ht
                simp [truthyOpt, hjt] at ht
              · intro fields hf htr
                exact absurd hf (by simp)
          | null =>
              have hm : handle_mention db uid dec resp today pd =
                  { events := [], messages := [], db := db, crashed := true } := by
                simp [handle_mention, extract_intent, hd, hjt]
              refine ⟨by rw [hm], by rw [hm]; rfl,
                by rw [hm]; simp [nlCrashes, isObjJson, hjt], ?_, ?_, fun _ _ _ _ => hm⟩
              · intro ht
                simp [truthyOpt, hjt] at ht
              · intro fields hf htr
                exact absurd hf (by simp)

/-- Witness for C5 (amended) at the response text " 42 ". -/
theorem c5_witness :
    nlBadResponse (decNum (pyStrip " 42 ")) = true ∧
    ((handle_mention exDB "UMGR" decNum " 42 " 0 pdNone).db = exDB ∧
      countInserts (handle_mention exDB "UMGR" decNum " 42 " 0 pdNone).events = 0 ∧
      (handle_mention exDB "UMGR" decNum " 42 " 0 pdNone).crashed =
        nlCrashes (decNum (pyStrip " 42 ")) ∧
      (truthyOpt (decNum (pyStrip " 42 ")) = false →
        handle_mention exDB "UMGR" decNum " 42 " 0 pdNone =
          { events := [], messages := ["⚠️ I couldn\x27t understand your request."],
            db := exDB, crashed := false }) ∧
      (∀ fields : List (String × Json),
        decNum (pyStrip " 42 ") = some (Json.obj fields) →
        jsonTruthy (Json.obj fields) = true →
        handle_mention exDB "UMGR" decNum " 42 " 0 pdNone =
          { events := [DbEvent.openConn],
            messages := ["⚠️ I couldn\x27t determine your request."],
            db := exDB, crashed := false }) ∧
      (∀ j : Json, decNum (pyStrip " 42 ") = some j → jsonTruthy j = true →
        isObjJson j = false →
        handle_mention exDB "UMGR" decNum " 42 " 0 pdNone =
          { events := [], messages := [], db := exDB, crashed := true })) :=
  ⟨rfl, c5_malformed_response exDB "UMGR" decNum " 42 " 0 pdNone rfl⟩

/-- Counterexample to C5 as stated: the response " 42 " strips and
decodes successfully to the JSON number 42, whose intent value is
missing, yet the request does not end as a ParseFailure with a generic
message — it terminates with an uncaught `AttributeError` (`crashed`)
and no message at all. -/
theorem c5_counterexample :
    (handle_mention exDB "UMGR" decNum " 42 " 0 pdNone).crashed = true ∧
    (handle_mention exDB "UMGR" decNum " 42 " 0 pdNone).messages = [] ∧
    (handle_mention exDB "UMGR" decNum " 42 " 0 pdNone).events = [] :=
  ⟨rfl, rfl, rfl⟩

/-- C7 (amended): on the mention channel a falsy member reference ends
the request with the specify-member error (before any task query);
a truthy reference runs the read query with the rendered reference as
fragment, returning the tasks of every member whose name contains the
fragment case-insensitively (`sqlTasksRows`), not of a single resolved
member; the structured `/tasks` channel performs no emptiness check at
all and always runs the same query with the raw command text. -/
theorem c7_view_tasks_paths (db : DB) (uid : String)
    (dec : String → Option Json) (resp : String) (today : Nat) (pd : String → Option Nat)
    (fields : List (String × Json))
    (hdec : dec (pyStrip resp) = some (Json.obj fields))
    (hint : jget fields "intent" = some (Json.str "view_tasks")) :
    (truthyOpt (jget fields "member_name") = false →
      handle_mention db uid dec resp today pd =
        { events := [DbEvent.openConn],
          messages := ["⚠️ Please specify a member name."], db := db, crashed := false }) ∧
    (∀ j : Json, jget fields "member_name" = some j → jsonTruthy j = true →
      handle_mention db uid dec resp today pd =
        { events := [DbEvent.openConn, DbEvent.queryTasks (pyStr j), DbEvent.closeConn],
          messages := [mentionTasksMsg (pyStr j) (sqlTasksRows db (pyStr j))],
          db := db, crashed := false }) ∧
    (∀ t : String, fetch_tasks db t =
      { events := [DbEvent.openConn, DbEvent.queryTasks t, DbEvent.closeConn],
        messages := [structTasksMsg (sqlTasksRows db t)], db := db, crashed := false }) := by
  have he := handle_mention_view_tasks db uid dec resp today pd fields hdec hint
  refine ⟨?_, ?_, fun t => rfl⟩
  · intro hmn
    rw [he]
    simp [mentionViewTasks, hmn, withOpenConn]
  · intro j hj hjt
    rw [he]
    simp [mentionViewTasks, hj, truthyOpt, hjt, withOpenConn]

/-- Witness for C7 (amended) at an empty member reference on the mention
channel. -/
theorem c7_witness :
    decViewEmpty (pyStrip "RESP") = some (Json.obj exViewEmptyFields) ∧
    jget exViewEmptyFields "intent" = some (Json.str "view_tasks") ∧
    ((truthyOpt (jget exViewEmptyFields "member_name") = false →
      handle_mention exDB "UMGR" decViewEmpty "RESP" 0 pdNone =
        { events := [DbEvent.openConn],
          messages := ["⚠️ Please specify a member name."], db := exDB, crashed := false }) ∧
      (∀ j : Json, jget exViewEmptyFields "member_name" = some j → jsonTruthy j = true →
        handle_mention exDB "UMGR" decViewEmpty "RESP" 0 pdNone =
          { events := [DbEvent.openConn, DbEvent.queryTasks (pyStr j), DbEvent.closeConn],
            messages := [mentionTasksMsg (pyStr j) (sqlTasksRows exDB (pyStr j))],
            db := exDB, crashed := false }) ∧
      (∀ t : String, fetch_tasks exDB t =
        { events := [DbEvent.openConn, DbEvent.queryTasks t, DbEvent.closeConn],
          messages := [structTasksMsg (sqlTasksRows exDB t)], db := exDB, crashed := false })) :=
  ⟨rfl, rfl, c7_view_tasks_paths exDB "UMGR" decViewEmpty "RESP" 0 pdNone exViewEmptyFields rfl rfl⟩

/-- Counterexample to C7 as stated: on the structured `/tasks` channel an
empty member reference does NOT end the request with an error asking for
a target — it runs the query with an all-matching fragment and lists
every task; and on the mention channel the non-empty reference "Ana"
yields a response containing the tasks of two distinct members (Ana and
Anaya), so the read query is not scoped to a single fuzzily matched
member. -/
theorem c7_counterexample :
    (fetch_tasks exDB2 "").messages =
      ["*Tasks:*\n• t1 (Deadline: d1)\n• t2 (Deadline: d2)\n"] ∧
    (handle_mention exDB2 "U1" decViewAna "RESP" 0 pdNone).messages =
      ["*Tasks for Ana:*\n• t1 (Deadline: d1)\n• t2 (Deadline: d2)\n"] :=
  ⟨rfl, rfl⟩

/-- C3: evaluation of `handle_mention` at the failing input — a mention
whose language-service response decodes to a view_tasks intent with an
empty member name — shows the request ends (with the specify-member
message) while the connection opened on entry is never closed: one
`openConn`, zero `closeConn`.  The same leak occurs on the unauthorized
assign, incomplete-details, bad-deadline and unknown-intent returns,
whereas the member-not-found and success paths do close, so the claim
that every exit path releases the connection fails on the code. -/
theorem c3_connection_leak :
    countOpens (handle_mention exDB "UMGR" decViewEmpty "RESP" 0 pdNone).events = 1 ∧
    countCloses (handle_mention exDB "UMGR" decViewEmpty "RESP" 0 pdNone).events = 0 ∧
    connReleased (handle_mention exDB "UMGR" decViewEmpty "RESP" 0 pdNone).events = false ∧
    (handle_mention exDB "UMGR" decViewEmpty "RESP" 0 pdNone).messages =
      ["⚠️ Please specify a member name."] :=
  ⟨rfl, rfl, rfl, rfl⟩
